import Mathlib

/-!
# Verification of the Crusty-Crawler credential gate, telemetry cache and
# server lifecycle

Shallow embedding of the core of the repository (src/auth.rs,
src/hardware_statistics.rs, src/main.rs, src/cli.rs) and proofs of the
specification claims about it.

Modelling conventions:
* Rust `String` is Lean `String`; Rust `str::len` (a byte count) is
  `String.length` (a character count) — the two agree on the ASCII data the
  claims range over.
* The `HashMap<String, User>` keyed by username is modelled as a
  `List User` in insertion order; `HashMap::insert` of a fresh key becomes
  list append, `contains_key` / `get` become `List.any` / `List.find?` on the
  `username` field (key and field always coincide in the code).
* bcrypt is abstracted: `hash(p, DEFAULT_COST)` becomes an arbitrary total
  function `hashFn : String → String` (the code's hash error path never
  fires on the inputs it is given), `verify(p, h)` an arbitrary total
  `verifyFn : String → String → Bool`.
* `fs::write` in `save_config` is abstracted as always succeeding; each
  operation's outcome records in a `saved` flag whether `save_config` was
  invoked, so "no write to the backing file" is a provable statement.
* `chrono::Utc::now().to_rfc3339()` becomes a timestamp parameter.
-/

/-- `User` from src/auth.rs. -/
structure User where
  username : String
  email : String
  password_hash : String
  access_token : String
  created_at : String
deriving Repr, DecidableEq

/-- `SmtpConfig` from src/auth.rs. -/
structure SmtpConfig where
  server : String
  port : Nat
  username : String
  password : String
  use_tls : Bool
deriving Repr, DecidableEq

/-- `AuthConfig` from src/auth.rs: the durable store.  The username-keyed
`HashMap` is modelled as a list of users in insertion order. -/
structure AuthConfig where
  users : List User
  smtp_config : Option SmtpConfig
deriving Repr, DecidableEq

/-- `AuthConfig::default()`: empty user map, no SMTP configuration. -/
def AuthConfig.default : AuthConfig := { users := [], smtp_config := none }

/-- Outcome of `AuthManager::register_user`: the store after the call (the
method takes `&mut self`), whether `save_config` was invoked, and the
returned `Result<(), String>`. -/
structure RegisterOutcome where
  store : AuthConfig
  saved : Bool
  result : Except String Unit
deriving Repr

/-- `AuthManager::register_user` from src/auth.rs lines 72-117.
`hashFn` abstracts `bcrypt::hash`, `createdAt` the RFC 3339 timestamp.
The checks appear in the code's order: duplicate username, short username,
short password, short access token, duplicate access token; note that the
function performs no validation of `email` whatsoever. -/
def register_user (hashFn : String → String) (createdAt : String)
    (cfg : AuthConfig) (username password email access_token : String) :
    RegisterOutcome :=
  if cfg.users.any (fun u => u.username == username) then
    ⟨cfg, false, .error "Username already exists"⟩
  else if username.length < 3 then
    ⟨cfg, false, .error "Username must be at least 3 characters"⟩
  else if password.length < 8 then
    ⟨cfg, false, .error "Password must be at least 8 characters"⟩
  else if access_token.length < 8 then
    ⟨cfg, false, .error "Access token must be at least 8 characters"⟩
  else if cfg.users.any (fun u => u.access_token == access_token) then
    ⟨cfg, false, .error "Access token already in use"⟩
  else
    let user : User :=
      { username := username
        email := email
        password_hash := hashFn password
        access_token := access_token
        created_at := createdAt }
    ⟨{ cfg with users := cfg.users ++ [user] }, true, .ok ()⟩

/-- `AuthManager::authenticate` from src/auth.rs lines 119-129.
`verifyFn` abstracts `bcrypt::verify` (total: the stored hashes are
well-formed bcrypt outputs, so the library's error path never fires). -/
def authenticate (verifyFn : String → String → Bool)
    (cfg : AuthConfig) (username password : String) : Except String String :=
  match cfg.users.find? (fun u => u.username == username) with
  | some user =>
      if verifyFn password user.password_hash then
        .ok user.access_token
      else
        .error "Invalid password"
  | none => .error "User not found"

/-- `AuthManager::validate_token` from src/auth.rs lines 131-138: linear scan
comparing access tokens for equality. -/
def validate_token (cfg : AuthConfig) (token : String) : Except String String :=
  match cfg.users.find? (fun u => u.access_token == token) with
  | some user => .ok user.username
  | none => .error "Invalid access token"

/-- The text emitted by `AuthManager::send_recovery_email`
(src/auth.rs lines 155-174): the sequence of `println!` lines, built from the
user's email, username and access token only. -/
def recoveryMessage (user : User) : String :=
  "=== RECOVERY EMAIL ===\n" ++
  ("To: " ++ (user.email ++
  ("\nSubject: Crusty Server Credentials Recovery\n\nHello " ++
  (user.username ++
  (",\n\nHere are your Crusty Server credentials:\nUsername: " ++
  (user.username ++
  ("\nAccess Token: " ++
  (user.access_token ++
  ("\n\nUse the username and password to log into the application.\n" ++
  ("Use the access token to access the web interface.\n\n" ++
  ("If you didn\x27t request this, please ignore this message.\n" ++
  "=== END EMAIL ===\n")))))))))))

/-- `AuthManager::recover_credentials` from src/auth.rs lines 140-153: find
the first user whose email matches exactly; if none, error; if the SMTP
notifier is unconfigured, error; otherwise invoke the notifier synchronously
(`send_recovery_email`, which always returns `Ok` after emitting the
message) — success carries the message that was emitted. -/
def recover_credentials (cfg : AuthConfig) (email : String) :
    Except String String :=
  match cfg.users.find? (fun u => u.email == email) with
  | none => .error "No user found with that email address"
  | some user =>
      match cfg.smtp_config with
      | some _ => .ok (recoveryMessage user)
      | none => .error "Email configuration not set up. Please contact administrator."

/-- `AuthManager::configure_smtp` from src/auth.rs lines 176-180. -/
def configure_smtp (cfg : AuthConfig) (smtp : SmtpConfig) : AuthConfig × Bool :=
  ({ cfg with smtp_config := some smtp }, true)

/-- `AuthManager::has_users` from src/auth.rs lines 182-184. -/
def has_users (cfg : AuthConfig) : Bool :=
  !cfg.users.isEmpty

/-- The store invariant of spec §3: usernames pairwise distinct and access
tokens pairwise distinct. -/
def StoreInvariant (cfg : AuthConfig) : Prop :=
  (cfg.users.map User.username).Nodup ∧ (cfg.users.map User.access_token).Nodup

instance : DecidablePred StoreInvariant := fun cfg =>
  inferInstanceAs (Decidable (_ ∧ _))

/-- Store states reachable from the empty store by sequences of
`register_user` calls (arbitrary hash functions, timestamps and inputs per
call; failed calls leave the store unchanged, so they are covered too). -/
inductive AuthReachable : AuthConfig → Prop
  | init : AuthReachable AuthConfig.default
  | step (hashFn : String → String) (createdAt : String)
      (username password email access_token : String) {cfg : AuthConfig} :
      AuthReachable cfg →
      AuthReachable
        (register_user hashFn createdAt cfg username password email
          access_token).store

/-! ## Characterization lemmas for `register_user` -/

lemma any_username_iff (cfg : AuthConfig) (un : String) :
    cfg.users.any (fun u => u.username == un) = true ↔
      ∃ u ∈ cfg.users, u.username = un := by
  simp [List.any_eq_true]

lemma any_token_iff (cfg : AuthConfig) (tok : String) :
    cfg.users.any (fun u => u.access_token == tok) = true ↔
      ∃ u ∈ cfg.users, u.access_token = tok := by
  simp [List.any_eq_true]

lemma register_err_dup_username (hashFn : String → String) (ts : String)
    (cfg : AuthConfig) (un pw em tok : String)
    (h : ∃ u ∈ cfg.users, u.username = un) :
    register_user hashFn ts cfg un pw em tok =
      ⟨cfg, false, .error "Username already exists"⟩ := by
  rw [← any_username_iff] at h
  simp [register_user, h]

lemma register_err_short_username (hashFn : String → String) (ts : String)
    (cfg : AuthConfig) (un pw em tok : String)
    (h1 : ¬∃ u ∈ cfg.users, u.username = un) (h2 : un.length < 3) :
    register_user hashFn ts cfg un pw em tok =
      ⟨cfg, false, .error "Username must be at least 3 characters"⟩ := by
  rw [← any_username_iff] at h1
  simp [register_user, h1, h2]

lemma register_err_short_password (hashFn : String → String) (ts : String)
    (cfg : AuthConfig) (un pw em tok : String)
    (h1 : ¬∃ u ∈ cfg.users, u.username = un) (h2 : ¬un.length < 3)
    (h3 : pw.length < 8) :
    register_user hashFn ts cfg un pw em tok =
      ⟨cfg, false, .error "Password must be at least 8 characters"⟩ := by
  rw [← any_username_iff] at h1
  simp [register_user, h1, h2, h3]

lemma register_err_short_token (hashFn : String → String) (ts : String)
    (cfg : AuthConfig) (un pw em tok : String)
    (h1 : ¬∃ u ∈ cfg.users, u.username = un) (h2 : ¬un.length < 3)
    (h3 : ¬pw.length < 8) (h4 : tok.length < 8) :
    register_user hashFn ts cfg un pw em tok =
      ⟨cfg, false, .error "Access token must be at least 8 characters"⟩ := by
  rw [← any_username_iff] at h1
  simp [register_user, h1, h2, h3, h4]

lemma register_err_dup_token (hashFn : String → String) (ts : String)
    (cfg : AuthConfig) (un pw em tok : String)
    (h1 : ¬∃ u ∈ cfg.users, u.username = un) (h2 : ¬un.length < 3)
    (h3 : ¬pw.length < 8) (h4 : ¬tok.length < 8)
    (h5 : ∃ u ∈ cfg.users, u.access_token = tok) :
    register_user hashFn ts cfg un pw em tok =
      ⟨cfg, false, .error "Access token already in use"⟩ := by
  rw [← any_username_iff] at h1
  rw [← any_token_iff] at h5
  simp [register_user, h1, h2, h3, h4, h5]

lemma register_ok (hashFn : String → String) (ts : String)
    (cfg : AuthConfig) (un pw em tok : String)
    (h1 : ¬∃ u ∈ cfg.users, u.username = un) (h2 : ¬un.length < 3)
    (h3 : ¬pw.length < 8) (h4 : ¬tok.length < 8)
    (h5 : ¬∃ u ∈ cfg.users, u.access_token = tok) :
    register_user hashFn ts cfg un pw em tok =
      ⟨{ cfg with users := cfg.users ++
          [{ username := un, email := em, password_hash := hashFn pw,
             access_token := tok, created_at := ts }] },
        true, .ok ()⟩ := by
  rw [← any_username_iff] at h1
  rw [← any_token_iff] at h5
  simp [register_user, h1, h2, h3, h4, h5]

/-- Any `register_user` call either leaves the store exactly as it was, with
`save_config` not invoked and an error returned, or appends the single new
user, saves, and returns `Ok`, with none of the five checked preconditions
violated. -/
lemma register_user_cases (hashFn : String → String) (ts : String)
    (cfg : AuthConfig) (un pw em tok : String) :
    ((register_user hashFn ts cfg un pw em tok).store = cfg ∧
     (register_user hashFn ts cfg un pw em tok).saved = false ∧
     ∃ msg, (register_user hashFn ts cfg un pw em tok).result =
       Except.error msg) ∨
    (register_user hashFn ts cfg un pw em tok =
      ⟨{ cfg with users := cfg.users ++
          [{ username := un, email := em, password_hash := hashFn pw,
             access_token := tok, created_at := ts }] },
        true, .ok ()⟩ ∧
     ¬(∃ u ∈ cfg.users, u.username = un) ∧ ¬un.length < 3 ∧
     ¬pw.length < 8 ∧ ¬tok.length < 8 ∧
     ¬∃ u ∈ cfg.users, u.access_token = tok) := by
  by_cases h1 : ∃ u ∈ cfg.users, u.username = un
  · exact Or.inl (by rw [register_err_dup_username hashFn ts cfg un pw em tok h1]
                     exact ⟨rfl, rfl, _, rfl⟩)
  by_cases h2 : un.length < 3
  · exact Or.inl (by rw [register_err_short_username hashFn ts cfg un pw em tok h1 h2]
                     exact ⟨rfl, rfl, _, rfl⟩)
  by_cases h3 : pw.length < 8
  · exact Or.inl (by rw [register_err_short_password hashFn ts cfg un pw em tok h1 h2 h3]
                     exact ⟨rfl, rfl, _, rfl⟩)
  by_cases h4 : tok.length < 8
  · exact Or.inl (by rw [register_err_short_token hashFn ts cfg un pw em tok h1 h2 h3 h4]
                     exact ⟨rfl, rfl, _, rfl⟩)
  by_cases h5 : ∃ u ∈ cfg.users, u.access_token = tok
  · exact Or.inl (by rw [register_err_dup_token hashFn ts cfg un pw em tok h1 h2 h3 h4 h5]
                     exact ⟨rfl, rfl, _, rfl⟩)
  · exact Or.inr ⟨register_ok hashFn ts cfg un pw em tok h1 h2 h3 h4 h5,
      h1, h2, h3, h4, h5⟩

/-- Helper: appending a user whose username and access token are fresh
preserves the store invariant. -/
lemma StoreInvariant.append {cfg : AuthConfig} {u : User}
    (h : StoreInvariant cfg)
    (hun : ¬∃ v ∈ cfg.users, v.username = u.username)
    (htok : ¬∃ v ∈ cfg.users, v.access_token = u.access_token) :
    StoreInvariant { cfg with users := cfg.users ++ [u] } := by
  obtain ⟨h1, h2⟩ := h
  constructor
  · simp only [List.map_append, List.map_cons, List.map_nil,
      List.nodup_append]
    refine ⟨h1, List.nodup_singleton _, ?_⟩
    intro x hx hx1
    simp only [List.mem_singleton] at hx1
    subst hx1
    obtain ⟨v, hv, hveq⟩ := List.mem_map.mp hx
    exact hun ⟨v, hv, hveq⟩
  · simp only [List.map_append, List.map_cons, List.map_nil,
      List.nodup_append]
    refine ⟨h2, List.nodup_singleton _, ?_⟩
    intro x hx hx1
    simp only [List.mem_singleton] at hx1
    subst hx1
    obtain ⟨v, hv, hveq⟩ := List.mem_map.mp hx
    exact htok ⟨v, hv, hveq⟩

/-- C1: for every sequence of `register_user` calls starting from the empty
store, no two stored users share a username and no two share an access
token; and a `register_user` call whose username or access token duplicates
a stored user's returns a validation error, does not write the backing file,
and leaves the store exactly as it was. -/
theorem register_uniqueness_invariant :
    (∀ cfg : AuthConfig, AuthReachable cfg → StoreInvariant cfg) ∧
    (∀ (hashFn : String → String) (createdAt : String) (cfg : AuthConfig)
        (un pw em tok : String),
      ((∃ u ∈ cfg.users, u.username = un) ∨
        (∃ u ∈ cfg.users, u.access_token = tok)) →
      (register_user hashFn createdAt cfg un pw em tok).store = cfg ∧
      (register_user hashFn createdAt cfg un pw em tok).saved = false ∧
      ∃ msg, (register_user hashFn createdAt cfg un pw em tok).result =
        Except.error msg) := by
  have dup_rejected : ∀ (hashFn : String → String) (createdAt : String)
      (cfg : AuthConfig) (un pw em tok : String),
      ((∃ u ∈ cfg.users, u.username = un) ∨
        (∃ u ∈ cfg.users, u.access_token = tok)) →
      (register_user hashFn createdAt cfg un pw em tok).store = cfg ∧
      (register_user hashFn createdAt cfg un pw em tok).saved = false ∧
      ∃ msg, (register_user hashFn createdAt cfg un pw em tok).result =
        Except.error msg := by
    intro hashFn ts cfg un pw em tok hdup
    rcases register_user_cases hashFn ts cfg un pw em tok with h | h
    · exact h
    · obtain ⟨_, hun, _, _, _, htok⟩ := h
      rcases hdup with hd | hd
      · exact absurd hd hun
      · exact absurd hd htok
  refine ⟨?_, dup_rejected⟩
  intro cfg h
  induction h with
  | init => exact ⟨List.nodup_nil, List.nodup_nil⟩
  | step hashFn ts un pw em tok _ ih =>
      rcases register_user_cases hashFn ts _ un pw em tok with h | h
      · rw [h.1]; exact ih
      · obtain ⟨heq, hun, _, _, _, htok⟩ := h
        rw [heq]
        exact ih.append hun htok

/-- Witness for C1 at a concrete two-step registration followed by a
duplicate-username attempt and a duplicate-token attempt. -/
theorem register_uniqueness_invariant_witness :
    ((∃ u ∈ (AuthConfig.mk
        [⟨"alice", "a@x.com", "h1", "tok12345", "t0"⟩] none).users,
        u.username = "alice") ∨
      (∃ u ∈ (AuthConfig.mk
        [⟨"alice", "a@x.com", "h1", "tok12345", "t0"⟩] none).users,
        u.access_token = "tok99999")) ∧
    (register_user (fun p => p) "t1"
        (AuthConfig.mk [⟨"alice", "a@x.com", "h1", "tok12345", "t0"⟩] none)
        "alice" "password1" "a2@x.com" "tok99999").store =
      AuthConfig.mk [⟨"alice", "a@x.com", "h1", "tok12345", "t0"⟩] none ∧
    (register_user (fun p => p) "t1"
        (AuthConfig.mk [⟨"alice", "a@x.com", "h1", "tok12345", "t0"⟩] none)
        "alice" "password1" "a2@x.com" "tok99999").saved = false ∧
    ∃ msg, (register_user (fun p => p) "t1"
        (AuthConfig.mk [⟨"alice", "a@x.com", "h1", "tok12345", "t0"⟩] none)
        "alice" "password1" "a2@x.com" "tok99999").result =
      Except.error msg := by
  have hd : (∃ u ∈ (AuthConfig.mk
        [⟨"alice", "a@x.com", "h1", "tok12345", "t0"⟩] none).users,
        u.username = "alice") ∨
      (∃ u ∈ (AuthConfig.mk
        [⟨"alice", "a@x.com", "h1", "tok12345", "t0"⟩] none).users,
        u.access_token = "tok99999") := by
    left; exact ⟨⟨"alice", "a@x.com", "h1", "tok12345", "t0"⟩, by simp, rfl⟩
  exact ⟨hd, register_uniqueness_invariant.2 (fun p => p) "t1"
    (AuthConfig.mk [⟨"alice", "a@x.com", "h1", "tok12345", "t0"⟩] none)
    "alice" "password1" "a2@x.com" "tok99999" hd⟩

/-! ## `find?` characterization under the uniqueness invariant -/

/-- If the projection `f` is duplicate-free on `l`, the linear scan for the
element whose projection equals `x` finds exactly the member carrying `x`. -/
lemma find_proj_eq_some {l : List User} {f : User → String} {x : String}
    {u : User} (hnd : (l.map f).Nodup) (hu : u ∈ l) (he : f u = x) :
    l.find? (fun v => f v == x) = some u := by
  induction l with
  | nil => cases hu
  | cons v t ih =>
      simp only [List.map_cons, List.nodup_cons] at hnd
      rcases List.mem_cons.mp hu with rfl | hu2
      · simp [List.find?_cons, he]
      · have hne : (f v == x) = false := by
          rw [beq_eq_false_iff_ne]
          intro hfv
          exact hnd.1 (by rw [hfv, ← he]; exact List.mem_map_of_mem f hu2)
        simp [List.find?_cons, hne, ih hnd.2 hu2]

lemma find_proj_eq_none {l : List User} {f : User → String} {x : String}
    (h : ¬∃ u ∈ l, f u = x) :
    l.find? (fun v => f v == x) = none := by
  rw [List.find?_eq_none]
  intro v hv hbeq
  exact h ⟨v, hv, by simpa using hbeq⟩

/-- C3: under the store invariant, `authenticate(u, p)` succeeds with `u`'s
stored access token iff a user named `u` exists and `p` verifies against
that user's stored password hash; a missing user yields the user-not-found
error and a failing verification the invalid-password error.
`validate_token(t)` succeeds iff `t` equals some registered user's access
token, returning exactly that user's username, and yields the invalid-token
error otherwise. -/
theorem authenticate_validate_token_correct
    (verifyFn : String → String → Bool) (cfg : AuthConfig)
    (hinv : StoreInvariant cfg) :
    (∀ un pw tok,
      authenticate verifyFn cfg un pw = Except.ok tok ↔
        ∃ u ∈ cfg.users, u.username = un ∧
          verifyFn pw u.password_hash = true ∧ u.access_token = tok) ∧
    (∀ un pw, (¬∃ u ∈ cfg.users, u.username = un) →
      authenticate verifyFn cfg un pw = Except.error "User not found") ∧
    (∀ un pw u, u ∈ cfg.users → u.username = un →
      verifyFn pw u.password_hash = false →
      authenticate verifyFn cfg un pw = Except.error "Invalid password") ∧
    (∀ t un,
      validate_token cfg t = Except.ok un ↔
        ∃ u ∈ cfg.users, u.access_token = t ∧ u.username = un) ∧
    (∀ t, (¬∃ u ∈ cfg.users, u.access_token = t) →
      validate_token cfg t = Except.error "Invalid access token") := by
  obtain ⟨hndUser, hndTok⟩ := hinv
  refine ⟨?_, ?_, ?_, ?_, ?_⟩
  · intro un pw tok
    constructor
    · intro h
      unfold authenticate at h
      rcases hfind : cfg.users.find? (fun v => v.username == un) with _ | u <;>
        rw [hfind] at h
      · cases h
      · have hu : u ∈ cfg.users := List.mem_of_find?_eq_some hfind
        have hun : u.username = un := by simpa using List.find?_some hfind
        by_cases hv : verifyFn pw u.password_hash = true
        · simp only [hv, if_true] at h
          refine ⟨u, hu, hun, hv, ?_⟩
          simpa using h
        · simp only [hv, if_false] at h
          cases h
    · rintro ⟨u, hu, hun, hv, htok⟩
      unfold authenticate
      rw [find_proj_eq_some hndUser hu hun]
      simp [hv, htok]
  · intro un pw h
    unfold authenticate
    rw [find_proj_eq_none h]
  · intro un pw u hu hun hv
    unfold authenticate
    rw [find_proj_eq_some hndUser hu hun]
    simp [hv]
  · intro t un
    constructor
    · intro h
      unfold validate_token at h
      rcases hfind : cfg.users.find? (fun v => v.access_token == t) with _ | u <;>
        rw [hfind] at h
      · cases h
      · simp only [Except.ok.injEq] at h
        exact ⟨u, List.mem_of_find?_eq_some hfind,
          by simpa using List.find?_some hfind, h⟩
    · rintro ⟨u, hu, htok, hun⟩
      unfold validate_token
      rw [find_proj_eq_some hndTok hu htok]
      simp [hun]
  · intro t h
    unfold validate_token
    rw [find_proj_eq_none h]

/-- Demonstration store used by witnesses: one registered user `alice` with
token `tok12345`, stand-in bcrypt pair. -/
def demoStore : AuthConfig :=
  { users := [⟨"alice", "a@x.com", "bcrypt$password1", "tok12345", "t0"⟩],
    smtp_config := none }

/-- Stand-in for `bcrypt::verify`: succeeds exactly when the hash is the
stand-in hash of the password. -/
def demoVerify (p h : String) : Bool := h == "bcrypt$" ++ p

/-- Witness for C3 on `demoStore`: the successful lookup, the wrong-password
error, the unknown-user error, the valid-token lookup and the bogus-token
error of the spec's scenarios C and D. -/
theorem authenticate_validate_token_correct_witness :
    StoreInvariant demoStore ∧
    authenticate demoVerify demoStore "alice" "password1" =
      Except.ok "tok12345" ∧
    authenticate demoVerify demoStore "alice" "wrongpass" =
      Except.error "Invalid password" ∧
    authenticate demoVerify demoStore "nobody" "x" =
      Except.error "User not found" ∧
    validate_token demoStore "tok12345" = Except.ok "alice" ∧
    validate_token demoStore "bogus" = Except.error "Invalid access token" := by
  have hinv : StoreInvariant demoStore := by
    constructor <;> simp [demoStore]
  have h := authenticate_validate_token_correct demoVerify demoStore hinv
  refine ⟨hinv, ?_, ?_, ?_, ?_, ?_⟩
  · exact (h.1 "alice" "password1" "tok12345").mpr
      ⟨⟨"alice", "a@x.com", "bcrypt$password1", "tok12345", "t0"⟩,
        by simp [demoStore], rfl, by rfl, rfl⟩
  · exact h.2.2.1 "alice" "wrongpass"
      ⟨"alice", "a@x.com", "bcrypt$password1", "tok12345", "t0"⟩
      (by simp [demoStore]) rfl (by rfl)
  · exact h.2.1 "nobody" "x" (by simp [demoStore])
  · exact (h.2.2.2.1 "tok12345" "alice").mpr
      ⟨⟨"alice", "a@x.com", "bcrypt$password1", "tok12345", "t0"⟩,
        by simp [demoStore], rfl, rfl⟩
  · exact h.2.2.2.2 "bogus" (by simp [demoStore])

/-- The email check `email.contains(\x27@\x27)` that the GUI setup form
(src/main.rs line 518) and the CLI wizard (src/cli.rs line 75) run before
calling `register_user` — `register_user` itself never runs it. -/
def email_has_at (em : String) : Bool := em.data.any (fun c => c == '@')

/-- Counterexample for C2: an input violating only the email precondition
(email `"noatsign"` has no `@`; all other stated preconditions hold) is
*accepted* by `register_user`: it returns `Ok`, writes the backing file, and
mutates the store — `register_user` performs no email validation at all. -/
theorem register_email_precondition_cex :
    email_has_at "noatsign" = false ∧
    (register_user (fun p => p) "t0" AuthConfig.default
        "abc" "password1" "noatsign" "tok12345").result = Except.ok () ∧
    (register_user (fun p => p) "t0" AuthConfig.default
        "abc" "password1" "noatsign" "tok12345").saved = true ∧
    (register_user (fun p => p) "t0" AuthConfig.default
        "abc" "password1" "noatsign" "tok12345").store ≠
      AuthConfig.default := by
  refine ⟨by decide, rfl, rfl, by decide⟩

/-- C2 (amended): the email constraint is not checked by `register_user`; for
each of the four checked precondition families (username present, username
< 3 chars, password < 8 chars, access token < 8 chars or already assigned),
an input violating it — and none of the checks the code runs earlier —
returns that precondition's specific validation error, and any input
violating at least one checked precondition leaves the in-memory store
exactly as it was and performs no write to the backing file. -/
theorem register_checked_precondition_failures
    (hashFn : String → String) (ts : String) (cfg : AuthConfig)
    (un pw em tok : String) :
    ((∃ u ∈ cfg.users, u.username = un) →
      register_user hashFn ts cfg un pw em tok =
        ⟨cfg, false, Except.error "Username already exists"⟩) ∧
    ((¬∃ u ∈ cfg.users, u.username = un) → un.length < 3 →
      register_user hashFn ts cfg un pw em tok =
        ⟨cfg, false, Except.error "Username must be at least 3 characters"⟩) ∧
    ((¬∃ u ∈ cfg.users, u.username = un) → ¬un.length < 3 → pw.length < 8 →
      register_user hashFn ts cfg un pw em tok =
        ⟨cfg, false, Except.error "Password must be at least 8 characters"⟩) ∧
    ((¬∃ u ∈ cfg.users, u.username = un) → ¬un.length < 3 → ¬pw.length < 8 →
      tok.length < 8 →
      register_user hashFn ts cfg un pw em tok =
        ⟨cfg, false,
          Except.error "Access token must be at least 8 characters"⟩) ∧
    ((¬∃ u ∈ cfg.users, u.username = un) → ¬un.length < 3 → ¬pw.length < 8 →
      ¬tok.length < 8 → (∃ u ∈ cfg.users, u.access_token = tok) →
      register_user hashFn ts cfg un pw em tok =
        ⟨cfg, false, Except.error "Access token already in use"⟩) ∧
    (((∃ u ∈ cfg.users, u.username = un) ∨ un.length < 3 ∨ pw.length < 8 ∨
        tok.length < 8 ∨ (∃ u ∈ cfg.users, u.access_token = tok)) →
      (register_user hashFn ts cfg un pw em tok).store = cfg ∧
      (register_user hashFn ts cfg un pw em tok).saved = false ∧
      ∃ msg, (register_user hashFn ts cfg un pw em tok).result =
        Except.error msg) := by
  refine ⟨register_err_dup_username hashFn ts cfg un pw em tok,
    register_err_short_username hashFn ts cfg un pw em tok,
    register_err_short_password hashFn ts cfg un pw em tok,
    register_err_short_token hashFn ts cfg un pw em tok,
    register_err_dup_token hashFn ts cfg un pw em tok, ?_⟩
  intro hviol
  rcases register_user_cases hashFn ts cfg un pw em tok with h | h
  · exact h
  · obtain ⟨_, h1, h2, h3, h4, h5⟩ := h
    rcases hviol with hv | hv | hv | hv | hv
    · exact absurd hv h1
    · exact absurd hv h2
    · exact absurd hv h3
    · exact absurd hv h4
    · exact absurd hv h5

/-- Witness for the amended C2 on `demoStore`: a duplicate-username attempt
and a short-password attempt each produce their specific error with the
store untouched and the file unwritten. -/
theorem register_checked_precondition_failures_witness :
    register_user (fun p => p) "t1" demoStore
        "alice" "password1" "b@x.com" "newtok99" =
      ⟨demoStore, false, Except.error "Username already exists"⟩ ∧
    register_user (fun p => p) "t1" demoStore
        "bob" "short" "b@x.com" "newtok99" =
      ⟨demoStore, false,
        Except.error "Password must be at least 8 characters"⟩ := by
  constructor
  · exact (register_checked_precondition_failures (fun p => p) "t1" demoStore
      "alice" "password1" "b@x.com" "newtok99").1
      ⟨⟨"alice", "a@x.com", "bcrypt$password1", "tok12345", "t0"⟩,
        by simp [demoStore], rfl⟩
  · exact (register_checked_precondition_failures (fun p => p) "t1" demoStore
      "bob" "short" "b@x.com" "newtok99").2.2.1
      (by simp [demoStore]) (by decide) (by decide)

/-- Counterexample for C5: with every other precondition satisfied and an
email containing no `@`, `register_user` succeeds and the user is added to
the store (no validation error). -/
theorem register_no_email_check_cex :
    email_has_at "invalid-email" = false ∧
    (register_user (fun p => p) "t0" AuthConfig.default
        "bob" "password1" "invalid-email" "tok55555").result =
      Except.ok () ∧
    (register_user (fun p => p) "t0" AuthConfig.default
        "bob" "password1" "invalid-email" "tok55555").store.users =
      [⟨"bob", "invalid-email", "password1", "tok55555", "t0"⟩] := by
  exact ⟨by decide, rfl, rfl⟩

/-- C5 (amended): `register_user` ignores the email argument entirely — when
the four checked preconditions hold, registration succeeds and stores the
user with the given email even though it contains no `@` (the `@` check
lives only in the GUI setup form and the CLI wizard, which run it before
calling `register_user`). -/
theorem register_ignores_email
    (hashFn : String → String) (ts : String) (cfg : AuthConfig)
    (un pw em tok : String)
    (hem : email_has_at em = false)
    (h1 : ¬∃ u ∈ cfg.users, u.username = un) (h2 : ¬un.length < 3)
    (h3 : ¬pw.length < 8) (h4 : ¬tok.length < 8)
    (h5 : ¬∃ u ∈ cfg.users, u.access_token = tok) :
    register_user hashFn ts cfg un pw em tok =
      ⟨{ cfg with users := cfg.users ++
          [{ username := un, email := em, password_hash := hashFn pw,
             access_token := tok, created_at := ts }] },
        true, Except.ok ()⟩ :=
  register_ok hashFn ts cfg un pw em tok h1 h2 h3 h4 h5

/-- Witness for the amended C5 at a concrete `@`-less email. -/
theorem register_ignores_email_witness :
    register_user (fun p => p) "t2" AuthConfig.default
        "carol" "password1" "plainaddress" "tok77777" =
      ⟨{ AuthConfig.default with users := AuthConfig.default.users ++
          [{ username := "carol", email := "plainaddress",
             password_hash := "password1",
             access_token := "tok77777", created_at := "t2" }] },
        true, Except.ok ()⟩ :=
  register_ignores_email (fun p => p) "t2" AuthConfig.default
    "carol" "password1" "plainaddress" "tok77777"
    (by decide) (by simp [AuthConfig.default]) (by decide) (by decide)
    (by decide) (by simp [AuthConfig.default])

/-- C9: `recover_credentials(e)` returns the no-such-email error when no
registered user's email equals `e` exactly; the notifier-unconfigured error
when a matching user exists but no SMTP configuration is set; and otherwise
invokes the notifier synchronously with the first matching user's username
and access token — the emitted message embeds the username and access token
and is independent of the password hash — returning success (carrying the
emitted message) only once that call completes. -/
theorem recover_credentials_correct (cfg : AuthConfig) (email : String) :
    ((¬∃ u ∈ cfg.users, u.email = email) →
      recover_credentials cfg email =
        Except.error "No user found with that email address") ∧
    (∀ u, cfg.users.find? (fun v => v.email == email) = some u →
      u ∈ cfg.users ∧ u.email = email ∧
      (cfg.smtp_config = none →
        recover_credentials cfg email =
          Except.error
            "Email configuration not set up. Please contact administrator.") ∧
      (∀ sc : SmtpConfig, cfg.smtp_config = some sc →
        recover_credentials cfg email = Except.ok (recoveryMessage u)) ∧
      (∃ pre mid post, recoveryMessage u =
        pre ++ (u.username ++ (mid ++ (u.access_token ++ post)))) ∧
      (∀ h, recoveryMessage { u with password_hash := h } =
        recoveryMessage u)) := by
  constructor
  · intro hnone
    unfold recover_credentials
    rw [find_proj_eq_none hnone]
  · intro u hfind
    have hu : u ∈ cfg.users := List.mem_of_find?_eq_some hfind
    have huem : u.email = email := by simpa using List.find?_some hfind
    refine ⟨hu, huem, ?_, ?_, ?_, ?_⟩
    · intro hsmtp
      unfold recover_credentials
      rw [hfind, hsmtp]
    · intro sc hsmtp
      unfold recover_credentials
      rw [hfind, hsmtp]
    · refine ⟨"=== RECOVERY EMAIL ===\n" ++ ("To: " ++ (u.email ++
        "\nSubject: Crusty Server Credentials Recovery\n\nHello ")),
        ",\n\nHere are your Crusty Server credentials:\nUsername: " ++
          (u.username ++ "\nAccess Token: "),
        "\n\nUse the username and password to log into the application.\n" ++
          ("Use the access token to access the web interface.\n\n" ++
          ("If you didn\x27t request this, please ignore this message.\n" ++
          "=== END EMAIL ===\n")), ?_⟩
      simp only [recoveryMessage, String.append_assoc]
    · intro h
      rfl

/-- Store with an SMTP configuration, for the C9 witness. -/
def demoStoreSmtp : AuthConfig :=
  { users := [⟨"alice", "a@x.com", "bcrypt$password1", "tok12345", "t0"⟩],
    smtp_config := some ⟨"smtp.example.com", 587, "mailer", "mailpass", true⟩ }

/-- Witness for C9: the no-such-email error on `demoStore`, the
unconfigured-notifier error on `demoStore`, and the successful notifier
invocation on `demoStoreSmtp`. -/
theorem recover_credentials_correct_witness :
    recover_credentials demoStore "x@y.com" =
      Except.error "No user found with that email address" ∧
    recover_credentials demoStore "a@x.com" =
      Except.error
        "Email configuration not set up. Please contact administrator." ∧
    recover_credentials demoStoreSmtp "a@x.com" =
      Except.ok (recoveryMessage
        ⟨"alice", "a@x.com", "bcrypt$password1", "tok12345", "t0"⟩) := by
  refine ⟨?_, ?_, ?_⟩
  · exact (recover_credentials_correct demoStore "x@y.com").1
      (by simp [demoStore])
  · exact (((recover_credentials_correct demoStore "a@x.com").2
      ⟨"alice", "a@x.com", "bcrypt$password1", "tok12345", "t0"⟩
      (by simp [demoStore])).2.2.1) rfl
  · exact (((recover_credentials_correct demoStoreSmtp "a@x.com").2
      ⟨"alice", "a@x.com", "bcrypt$password1", "tok12345", "t0"⟩
      (by simp [demoStoreSmtp])).2.2.2.1)
      ⟨"smtp.example.com", 587, "mailer", "mailpass", true⟩ rfl

/-!
## Hardware telemetry cache (src/hardware_statistics.rs)

`Instant` is modelled as an integer timestamp in seconds (a monotone clock:
calls never observe a time before the state's `last_update` stamp except
through the deliberately back-dated initial state).  The external
`HardwareInfo::query` collaborator, together with the formatting of its
power/thermal/suggestion fields performed in the `Ok` arm, is abstracted as
a parameter of type `Except String (String × String × List String)`: either
the formatted `(power_output, thermal_output, suggestions)` or the error
whose display string the `Err` arm records.
-/

/-- `HardwareMonitorState` from src/hardware_statistics.rs. -/
structure HardwareMonitorState where
  last_update : Int
  power_info : Option String
  thermal_info : Option String
  optimization_suggestions : List String
deriving Repr, DecidableEq

/-- `HardwareMonitorState::default()` at creation instant `creation`:
`last_update` is back-dated 61 seconds to force an immediate update. -/
def HardwareMonitorState.start (creation : Int) : HardwareMonitorState :=
  { last_update := creation - 61
    power_info := none
    thermal_info := none
    optimization_suggestions := [] }

/-- `update_hardware_info` from src/hardware_statistics.rs lines 21-81:
replace the snapshot from a successful query, or on failure record the
error's display string as the content of both the power and the thermal
summaries (leaving the stale suggestions in place); either way stamp
`last_update` to the current instant. -/
def update_hardware_info
    (queryResult : Except String (String × String × List String))
    (now : Int) (s : HardwareMonitorState) : HardwareMonitorState :=
  match queryResult with
  | .ok (powerOutput, thermalOutput, suggestions) =>
      { power_info := some powerOutput
        thermal_info := some thermalOutput
        optimization_suggestions := suggestions
        last_update := now }
  | .error e =>
      let error_msg := "Error querying hardware: " ++ e
      { s with
        power_info := some error_msg
        thermal_info := some error_msg
        last_update := now }

/-- The refresh step of `get_hardware_status`
(src/hardware_statistics.rs lines 87-93): query and replace the snapshot
exactly when more than 60 seconds have elapsed since `last_update`.  The
returned flag records whether the underlying telemetry query was issued. -/
def get_snapshot
    (queryResult : Except String (String × String × List String))
    (now : Int) (s : HardwareMonitorState) : HardwareMonitorState × Bool :=
  if now - s.last_update > 60 then
    (update_hardware_info queryResult now s, true)
  else
    (s, false)

/-- The rendering step of `get_hardware_status`
(src/hardware_statistics.rs lines 95-120). -/
def render_hardware (hs : HardwareMonitorState) : String :=
  ("\n=== Power Information ===\n" ++
  ((match hs.power_info with
    | some p => p
    | none => "Power info not available\n") ++
  ("\n=== Thermal Information ===\n" ++
  ((match hs.thermal_info with
    | some t => t
    | none => "Thermal info not available\n") ++
  (if hs.optimization_suggestions.isEmpty then ""
   else "\n=== Optimization Suggestions ===\n" ++
     String.join (hs.optimization_suggestions.map (fun sg => sg ++ "\n")))))))

/-- `get_hardware_status` from src/hardware_statistics.rs lines 84-123:
refresh if stale, then render the (possibly new) snapshot. -/
def get_hardware_status
    (queryResult : Except String (String × String × List String))
    (now : Int) (s : HardwareMonitorState) : HardwareMonitorState × String :=
  ((get_snapshot queryResult now s).1,
    render_hardware (get_snapshot queryResult now s).1)

lemma update_hardware_info_last_update
    (q : Except String (String × String × List String)) (now : Int)
    (s : HardwareMonitorState) :
    (update_hardware_info q now s).last_update = now := by
  unfold update_hardware_info
  rcases q with e | ⟨p, t, sg⟩ <;> rfl

/-- C6: the cache issues the underlying telemetry query exactly when more
than 60 seconds have elapsed since `last_update` (the back-dated initial
state forces a refresh on the first call); on a refresh `last_update` is
stamped to `now` even when the query fails, and the failed query's error
message becomes the content of both the power and the thermal summaries;
calls within the 60-second window return the cached snapshot unchanged
without issuing a query — hence at most one query per 60-second window. -/
theorem hardware_cache_ttl :
    (∀ (q : Except String (String × String × List String))
        (now : Int) (s : HardwareMonitorState),
      (get_snapshot q now s).2 = true ↔ now - s.last_update > 60) ∧
    (∀ (q : Except String (String × String × List String))
        (creation now : Int), creation ≤ now →
      (get_snapshot q now (HardwareMonitorState.start creation)).2 = true) ∧
    (∀ (q : Except String (String × String × List String))
        (now : Int) (s : HardwareMonitorState),
      now - s.last_update > 60 →
      (get_snapshot q now s).1.last_update = now) ∧
    (∀ (e : String) (now : Int) (s : HardwareMonitorState),
      now - s.last_update > 60 →
      (get_snapshot (Except.error e) now s).1 =
        { s with
          power_info := some ("Error querying hardware: " ++ e)
          thermal_info := some ("Error querying hardware: " ++ e)
          last_update := now }) ∧
    (∀ (q : Except String (String × String × List String))
        (now : Int) (s : HardwareMonitorState),
      ¬now - s.last_update > 60 → get_snapshot q now s = (s, false)) ∧
    (∀ (q q2 : Except String (String × String × List String))
        (now now2 : Int) (s : HardwareMonitorState),
      (get_snapshot q now s).2 = true → now2 - now ≤ 60 →
      (get_snapshot q2 now2 (get_snapshot q now s).1).2 = false) := by
  have hflag : ∀ (q : Except String (String × String × List String))
      (now : Int) (s : HardwareMonitorState),
      (get_snapshot q now s).2 = true ↔ now - s.last_update > 60 := by
    intro q now s
    unfold get_snapshot
    by_cases h : now - s.last_update > 60 <;> simp [h]
  have hfresh : ∀ (q : Except String (String × String × List String))
      (now : Int) (s : HardwareMonitorState),
      now - s.last_update > 60 →
      (get_snapshot q now s).1.last_update = now := by
    intro q now s h
    unfold get_snapshot
    simp [h, update_hardware_info_last_update]
  refine ⟨hflag, ?_, hfresh, ?_, ?_, ?_⟩
  · intro q creation now hle
    rw [hflag]
    simp only [HardwareMonitorState.start]
    omega
  · intro e now s h
    unfold get_snapshot
    simp only [h, if_pos]
    rfl
  · intro q now s h
    unfold get_snapshot
    simp [h]
  · intro q q2 now now2 s hq hwin
    have hlu : (get_snapshot q now s).1.last_update = now :=
      hfresh q now s ((hflag q now s).mp hq)
    rcases hb : (get_snapshot q2 now2 (get_snapshot q now s).1).2 with _ | _
    · rfl
    · exfalso
      have hgt := (hflag q2 now2 (get_snapshot q now s).1).mp hb
      rw [hlu] at hgt
      omega

/-- Witness for C6 at a concrete run: the back-dated initial state (created
at instant 0) refreshes on the first call even though the query fails, the
error text lands in both summaries with `last_update` stamped to 0, and a
second call 30 seconds later returns the cached snapshot unchanged without
querying. -/
theorem hardware_cache_ttl_witness :
    (get_snapshot (Except.error "boom") 0 (HardwareMonitorState.start 0)).2 =
      true ∧
    (get_snapshot (Except.error "boom") 0 (HardwareMonitorState.start 0)).1 =
      { last_update := 0
        power_info := some "Error querying hardware: boom"
        thermal_info := some "Error querying hardware: boom"
        optimization_suggestions := [] } ∧
    get_snapshot (Except.ok ("p", "t", [])) 30
        (get_snapshot (Except.error "boom") 0
          (HardwareMonitorState.start 0)).1 =
      ((get_snapshot (Except.error "boom") 0
          (HardwareMonitorState.start 0)).1, false) := by
  have h := hardware_cache_ttl
  have hstale : (0 : Int) - (HardwareMonitorState.start 0).last_update > 60 := by
    simp only [HardwareMonitorState.start]
    decide
  have hlu : (get_snapshot (Except.error "boom") 0
      (HardwareMonitorState.start 0)).1.last_update = 0 :=
    h.2.2.1 (Except.error "boom") 0 (HardwareMonitorState.start 0) hstale
  refine ⟨(h.1 (Except.error "boom") 0 (HardwareMonitorState.start 0)).mpr
    hstale, ?_, ?_⟩
  · rw [h.2.2.2.1 "boom" 0 (HardwareMonitorState.start 0) hstale]
    rfl
  · exact h.2.2.2.2.1 (Except.ok ("p", "t", [])) 30
      (get_snapshot (Except.error "boom") 0 (HardwareMonitorState.start 0)).1
      (by rw [hlu]; decide)

/-!
## Server lifecycle (src/main.rs `MainState::start_server` /
`MainState::stop_server`, src/cli.rs `stop_server` / `show_status`)

`ServerState` mirrors the shared runtime state of src/main.rs lines 37-43
(the credential-store and hardware-cache handles live in their own models
above); the `oneshot::Sender` is modelled by its presence.  Each lifecycle
operation is the atomic state change the code performs under the lock;
the detached listener thread's contributions (bind failure, listener exit)
are separate transitions.
-/

/-- The lifecycle-relevant fields of `ServerState` (src/main.rs lines 37-43).
`shutdown_sender` records whether the one-shot sender is `Some`. -/
structure ServerState where
  is_running : Bool
  port : Nat
  shutdown_sender : Bool
deriving Repr, DecidableEq

/-- `ServerState::default()` (src/main.rs lines 45-58): stopped, port 3000,
no shutdown sender. -/
def ServerState.initial : ServerState :=
  { is_running := false, port := 3000, shutdown_sender := false }

/-- `str::parse::<u16>` on the port input: all-digit, non-empty, value below
2^16 (approximation: a leading `+` sign is not accepted; no port in the
claims carries one). -/
def parse_u16 (s : String) : Option Nat :=
  if s.data.isEmpty then none
  else if s.data.all Char.isDigit then
    (if (s.data.foldl (fun acc c => acc * 10 + (c.toNat - 48)) 0) < 65536 then
      some (s.data.foldl (fun acc c => acc * 10 + (c.toNat - 48)) 0)
    else none)
  else none

/-- `MainState::start_server` from src/main.rs lines 109-182: parse the port
input (on failure report and leave the state alone); reject when already
running; otherwise create the shutdown channel, mark running, record the
port and store the sender, then spawn the listener thread.  Returns the new
state and the `status_message` the method sets. -/
def start_server (s : ServerState) (port_input : String) :
    ServerState × String :=
  match parse_u16 port_input with
  | none => (s, "Invalid port number: " ++ port_input)
  | some port =>
      if s.is_running then
        (s, "Server is already running!")
      else
        ({ is_running := true, port := port, shutdown_sender := true },
          "✅ Server hosted on port " ++ toString port ++
            " (accessible from any device)")

/-- `MainState::stop_server` from src/main.rs lines 184-203: take the
sender (leaving `None`); if one was present fire it, else report that the
server is not running; finally mark not running. -/
def stop_server (s : ServerState) : ServerState × String :=
  ({ is_running := false, port := s.port, shutdown_sender := false },
    if s.shutdown_sender then "🛑 Server shutdown initiated..."
    else "❌ Server is not running")

/-- The common tail of the listener thread (src/main.rs lines 173-175):
clear `is_running` and drop the sender. -/
def listener_tail (s : ServerState) : ServerState :=
  { s with is_running := false, shutdown_sender := false }

/-- The bind-failure arm of the listener thread (src/main.rs lines 166-171)
followed by the common tail. -/
def bind_failure (s : ServerState) : ServerState :=
  listener_tail { s with is_running := false }

/-- A normal listener exit (served future or shutdown signal resolved,
src/main.rs lines 157-164) followed by the common tail. -/
def listener_exit (s : ServerState) : ServerState :=
  listener_tail s

/-- The read-only status snapshot (src/cli.rs `show_status` lines 256-273,
and the GUI's running/port read): `(running, port)`. -/
def server_status (s : ServerState) : Bool × Nat :=
  (s.is_running, s.port)

/-- Runtime states reachable from `ServerState::default()` by
interleaving-free sequences of lifecycle operations. -/
inductive ServerReachable : ServerState → Prop
  | init : ServerReachable ServerState.initial
  | start (s : ServerState) (port_input : String) :
      ServerReachable s → ServerReachable (start_server s port_input).1
  | stop (s : ServerState) :
      ServerReachable s → ServerReachable (stop_server s).1
  | bindFail (s : ServerState) :
      ServerReachable s → ServerReachable (bind_failure s)
  | exitListener (s : ServerState) :
      ServerReachable s → ServerReachable (listener_exit s)

/-- The lifecycle invariant, proved by induction over reachability; shared
by the stop-guard and invariant theorems below. -/
lemma server_runtime_invariant
    (s : ServerState) (h : ServerReachable s) :
    s.shutdown_sender = true ↔ s.is_running = true := by
  induction h with
  | init => simp [ServerState.initial]
  | start s pi _ ih =>
      unfold start_server
      rcases hp : parse_u16 pi with _ | p
      · simpa using ih
      · by_cases hrun : s.is_running = true
        · simp only [hrun, if_true]
          simpa [hrun] using ih
        · simp only [Bool.not_eq_true] at hrun
          simp [hrun]
  | stop s _ _ =>
      simp [stop_server]
  | bindFail s _ _ =>
      simp [bind_failure, listener_tail]
  | exitListener s _ _ =>
      simp [listener_exit, listener_tail]

/-- C7: `stop_server` on a stopped state reports the not-running error and
returns the state untouched; `start_server` on a running state (with a
parseable port input) reports already-running and changes nothing — in
particular, after a start on port 8080 a second start on port 9090 fails
and the status still reports port 8080. -/
theorem lifecycle_start_stop_guards :
    (∀ s : ServerState, ServerReachable s → s.is_running = false →
      stop_server s = (s, "❌ Server is not running")) ∧
    (∀ (s : ServerState) (port_input : String) (p : Nat),
      parse_u16 port_input = some p → s.is_running = true →
      start_server s port_input = (s, "Server is already running!")) ∧
    (∀ s : ServerState, s.is_running = false →
      (start_server (start_server s "8080").1 "9090").1 =
        (start_server s "8080").1 ∧
      (start_server (start_server s "8080").1 "9090").2 =
        "Server is already running!" ∧
      server_status (start_server (start_server s "8080").1 "9090").1 =
        (true, 8080)) := by
  have hstart8080 : ∀ s : ServerState, s.is_running = false →
      (start_server s "8080").1 =
        { is_running := true, port := 8080, shutdown_sender := true } := by
    intro s hs
    unfold start_server
    have hp : parse_u16 "8080" = some 8080 := by decide
    rw [hp, hs]
    rfl
  have halready : ∀ (s : ServerState) (port_input : String) (p : Nat),
      parse_u16 port_input = some p → s.is_running = true →
      start_server s port_input = (s, "Server is already running!") := by
    intro s pi p hp hs
    unfold start_server
    rw [hp, hs]
    rfl
  refine ⟨?_, halready, ?_⟩
  · intro s hreach h1
    have h2 : s.shutdown_sender = false := by
      rcases hb : s.shutdown_sender with _ | _
      · rfl
      · rw [(server_runtime_invariant s hreach).mp hb] at h1
        cases h1
    unfold stop_server
    rw [h2]
    cases s
    simp_all
  · intro s hs
    have h1 := hstart8080 s hs
    have h2 := halready (start_server s "8080").1 "9090" 9090 (by decide)
      (by rw [h1])
    rw [h2]
    refine ⟨rfl, rfl, ?_⟩
    rw [h1]
    rfl

/-- Witness for C7 at the default runtime state: stop while stopped leaves
the state untouched with the not-running message; start on 8080 then start
on 9090 yields already-running and the status still reports port 8080. -/
theorem lifecycle_start_stop_guards_witness :
    stop_server ServerState.initial =
      (ServerState.initial, "❌ Server is not running") ∧
    (start_server (start_server ServerState.initial "8080").1 "9090").1 =
      (start_server ServerState.initial "8080").1 ∧
    (start_server (start_server ServerState.initial "8080").1 "9090").2 =
      "Server is already running!" ∧
    server_status
        (start_server (start_server ServerState.initial "8080").1 "9090").1 =
      (true, 8080) := by
  refine ⟨lifecycle_start_stop_guards.1 ServerState.initial
    ServerReachable.init rfl, ?_⟩
  exact lifecycle_start_stop_guards.2.2 ServerState.initial rfl

/-- C8: in every state reachable by an interleaving-free sequence of
lifecycle operations (start, stop, bind failure, listener exit) from the
default state, the shutdown sender is present if and only if the server is
marked running. -/
theorem shutdown_handle_iff_running
    (s : ServerState) (h : ServerReachable s) :
    s.shutdown_sender = true ↔ s.is_running = true :=
  server_runtime_invariant s h

/-- Witness for C8 at a concrete reachable state: the state reached by a
start on port 8080 from the default state satisfies the invariant. -/
theorem shutdown_handle_iff_running_witness :
    (start_server ServerState.initial "8080").1.shutdown_sender = true ↔
      (start_server ServerState.initial "8080").1.is_running = true :=
  shutdown_handle_iff_running (start_server ServerState.initial "8080").1
    (ServerReachable.start ServerState.initial "8080" ServerReachable.init)

/-!
## HTTP handlers (src/main.rs `status_handler`, `index_handler`, `status`)

`HttpResponse` models `Result<Html<String>, StatusCode>` as produced by the
two handlers: `okHtml` is a 200 with the given body, `unauthorized` the
`StatusCode::UNAUTHORIZED` (401) error arm.  The content of
`public/index.html` (outside src/) is an opaque template parameter.
-/

inductive HttpResponse where
  | okHtml (body : String)
  | unauthorized
deriving Repr, DecidableEq

/-- The inline login page served by `index_handler` when no token query
parameter is present (src/main.rs lines 309-338). -/
def loginPage : String :=
  "\n        <!DOCTYPE html>\n        <html>\n        <head>\n            <title>Crusty Server - Login</title>\n            <style>\n                body \x7b font-family: Arial, sans-serif; margin: 40px; \x7d\n                .container \x7b max-width: 400px; margin: 0 auto; \x7d\n                input \x7b width: 100%; padding: 10px; margin: 10px 0; \x7d\n                button \x7b width: 100%; padding: 10px; background: #007bff; color: white; border: none; \x7d\n            </style>\n        </head>\n        <body>\n            <div class=\"container\">\n                <h1>Crusty Server</h1>\n                <p>Enter your access token:</p>\n                <input type=\"password\" id=\"token\" placeholder=\"Access Token\">\n                <button onclick=\"login()\">Access System</button>\n            </div>\n            <script>\n                function login() \x7b\n                    const token = document.getElementById(\x27token\x27).value;\n                    if (token) \x7b\n                        window.location.href = \x27/?token=\x27 + encodeURIComponent(token);\n                    \x7d\n                \x7d\n            </script>\n        </body>\n        </html>\n        "

/-- `status_handler` from src/main.rs lines 268-289: 200 with the status
report iff the `token` query parameter is present and validates;
401 otherwise (a missing token is 401 here).  `report` stands for the
body `status(server_state).await` computes (see `status` below). -/
def status_handler (cfg : AuthConfig) (token : Option String)
    (report : String) : HttpResponse :=
  let is_valid :=
    match token with
    | some t => (validate_token cfg t).isOk
    | none => false
  if is_valid then .okHtml report else .unauthorized

/-- `index_handler` from src/main.rs lines 291-341: with a valid token,
200 with the HTML shell (the `public/index.html` template with `{{TOKEN}}`
and `{{PORT}}` substituted); with an invalid token, 401; with no token at
all, 200 with the login page. -/
def index_handler (indexTemplate : String) (cfg : AuthConfig) (port : Nat)
    (token : Option String) : HttpResponse :=
  match token with
  | some t =>
      if (validate_token cfg t).isOk then
        .okHtml ((indexTemplate.replace "\x7b\x7bTOKEN\x7d\x7d" t).replace
          "\x7b\x7bPORT\x7d\x7d" (toString port))
      else
        .unauthorized
  | none => .okHtml loginPage

lemma validate_token_isOk_iff (cfg : AuthConfig) (t : String) :
    (validate_token cfg t).isOk = true ↔
      ∃ u ∈ cfg.users, u.access_token = t := by
  unfold validate_token
  rcases hfind : cfg.users.find? (fun v => v.access_token == t) with _ | u <;>
    rw [hfind]
  · rw [List.find?_eq_none] at hfind
    simp only [Except.isOk, Except.toBool]
    constructor
    · intro h; cases h
    · rintro ⟨u, hu, htok⟩
      exact absurd (by simpa using htok) (by simpa using hfind u hu)
  · simp only [Except.isOk, Except.toBool]
    constructor
    · intro _
      exact ⟨u, List.mem_of_find?_eq_some hfind,
        by simpa using List.find?_some hfind⟩
    · intro _; trivial

/-- C4: `GET /api/status` answers 200 with the report exactly when the token
query parameter is present and matches a registered user's access token,
and 401 in every other case, including a missing token; `GET /` answers 200
with the substituted HTML shell on a valid token, 401 on an invalid one,
and — with no token parameter at all — a 200 login page rather than 401. -/
theorem token_gate_responses (cfg : AuthConfig) (report : String)
    (indexTemplate : String) (port : Nat) :
    (∀ t, (∃ u ∈ cfg.users, u.access_token = t) →
      status_handler cfg (some t) report = HttpResponse.okHtml report) ∧
    (∀ t, (¬∃ u ∈ cfg.users, u.access_token = t) →
      status_handler cfg (some t) report = HttpResponse.unauthorized) ∧
    status_handler cfg none report = HttpResponse.unauthorized ∧
    (∀ t, (∃ u ∈ cfg.users, u.access_token = t) →
      index_handler indexTemplate cfg port (some t) =
        HttpResponse.okHtml ((indexTemplate.replace "\x7b\x7bTOKEN\x7d\x7d"
          t).replace "\x7b\x7bPORT\x7d\x7d" (toString port))) ∧
    (∀ t, (¬∃ u ∈ cfg.users, u.access_token = t) →
      index_handler indexTemplate cfg port (some t) =
        HttpResponse.unauthorized) ∧
    index_handler indexTemplate cfg port none =
      HttpResponse.okHtml loginPage := by
  refine ⟨?_, ?_, rfl, ?_, ?_, rfl⟩
  · intro t ht
    have hv := (validate_token_isOk_iff cfg t).mpr ht
    simp [status_handler, hv]
  · intro t ht
    have hv : (validate_token cfg t).isOk = false := by
      rcases hb : (validate_token cfg t).isOk with _ | _
      · rfl
      · exact absurd ((validate_token_isOk_iff cfg t).mp hb) ht
    simp [status_handler, hv]
  · intro t ht
    have hv := (validate_token_isOk_iff cfg t).mpr ht
    simp [index_handler, hv]
  · intro t ht
    have hv : (validate_token cfg t).isOk = false := by
      rcases hb : (validate_token cfg t).isOk with _ | _
      · rfl
      · exact absurd ((validate_token_isOk_iff cfg t).mp hb) ht
    simp [index_handler, hv]

/-- Witness for C4 on `demoStore`: the registered token gets the report and
the shell, a bogus token gets 401 on both routes, and a token-less request
gets 401 on the API route but the 200 login page on the root route. -/
theorem token_gate_responses_witness :
    status_handler demoStore (some "tok12345") "REPORT" =
      HttpResponse.okHtml "REPORT" ∧
    status_handler demoStore (some "bogus") "REPORT" =
      HttpResponse.unauthorized ∧
    status_handler demoStore none "REPORT" = HttpResponse.unauthorized ∧
    index_handler "SHELL" demoStore 8080 (some "tok12345") =
      HttpResponse.okHtml (("SHELL".replace "\x7b\x7bTOKEN\x7d\x7d"
        "tok12345").replace "\x7b\x7bPORT\x7d\x7d" (toString 8080)) ∧
    index_handler "SHELL" demoStore 8080 (some "bogus") =
      HttpResponse.unauthorized ∧
    index_handler "SHELL" demoStore 8080 none =
      HttpResponse.okHtml loginPage := by
  have h := token_gate_responses demoStore "REPORT" "SHELL" 8080
  have hmem : ∃ u ∈ demoStore.users, u.access_token = "tok12345" :=
    ⟨⟨"alice", "a@x.com", "bcrypt$password1", "tok12345", "t0"⟩,
      by simp [demoStore], rfl⟩
  have hno : ¬∃ u ∈ demoStore.users, u.access_token = "bogus" := by
    simp [demoStore]
  exact ⟨h.1 "tok12345" hmem, h.2.1 "bogus" hno, h.2.2.1,
    h.2.2.2.1 "tok12345" hmem, h.2.2.2.2.1 "bogus" hno, h.2.2.2.2.2⟩

/-- Rust `{:?}` (Debug) formatting of a string: wrap in double quotes
(escaping of special characters elided — the claims use plain names). -/
def debugQuote (s : String) : String := "\"" ++ (s ++ "\"")

/-- The `  {item}\n` lines a collector section prints for its items
(src/main.rs lines 377-379 and analogues). -/
def itemLines (items : List String) : String :=
  String.join (items.map (fun it => "  " ++ (it ++ "\n")))

/-- `status` from src/main.rs lines 344-433: the assembled report body.
The system collectors are external (sysinfo, network, components, disks):
`system_name`, `used_memory` (bytes), the pre-formatted `cpu_usage`
percentage, and one `Except` per fallible collector stand for their
outputs; `hardware_output` is the `get_hardware_status` section.
`serverPort` is the port the server is actually serving on — available in
the locked state but never read by `status`.  The trailing access URL uses
the first stored user's access token (`users.values().next()`,
independent of the request's token, which `status` does not even receive)
and the hard-coded port 3000. -/
def status (serverPort : Nat) (system_name : String) (used_memory : Nat)
    (cpu_usage : String) (hardware_output : String)
    (network_stats network_traffic components disks :
      Except String (List String)) (cfg : AuthConfig) : String :=
  let token := ((cfg.users.head?).map User.access_token).getD ""
  let out := "System name: " ++ (debugQuote system_name ++ "\n")
  let out := out ++ ("Memory in Use: " ++
    (toString (used_memory / 1024 / 1024) ++ " MB\n"))
  let out := out ++ ("CPU usage: " ++ (cpu_usage ++ "%\n"))
  let out := out ++ hardware_output
  let out := out ++
    (match network_stats with
     | .ok nets => "\nNetwork Statistics (Total):\n" ++ itemLines nets
     | .error e => "\nError getting network stats: " ++ (e ++ "\n"))
  let out := out ++
    (match network_traffic with
     | .ok traffic => "\nCurrent Network Traffic:\n" ++ itemLines traffic
     | .error e => "\nError getting network traffic: " ++ (e ++ "\n"))
  let out := out ++
    (match components with
     | .ok comps => "\nComponents:\n" ++
         ((if comps.isEmpty then "No Components Found\n" else "") ++
          itemLines comps)
     | .error e => "\nError checking components: " ++ (e ++ "\n"))
  let out := out ++
    (match disks with
     | .ok ds => "\nDisks:\n" ++
         ((if ds.isEmpty then "No Disks Found\n" else "") ++ itemLines ds)
     | .error e => "\nError checking disks: " ++ (e ++ "\n"))
  out ++ ("\nAccess URL: http://localhost:3000/?token=" ++ token)

/-- C10: every assembled status report ends with
`Access URL: http://localhost:3000/?token=<t>` where `<t>` is the first
stored user's access token — some registered user's token whenever the
store is non-empty, the empty string when it is empty — chosen with no
dependence on the authenticating token (`status` never receives it), and
with the URL's port the constant 3000 whatever port the server actually
serves on (the report is identical for every `serverPort`). -/
theorem status_access_url
    (serverPort : Nat) (system_name : String) (used_memory : Nat)
    (cpu_usage : String) (hardware_output : String)
    (network_stats network_traffic components disks :
      Except String (List String)) (cfg : AuthConfig) :
    (∃ pre, status serverPort system_name used_memory cpu_usage
        hardware_output network_stats network_traffic components disks cfg =
      pre ++ ("\nAccess URL: http://localhost:3000/?token=" ++
        ((cfg.users.head?).map User.access_token).getD "")) ∧
    (cfg.users = [] →
      ((cfg.users.head?).map User.access_token).getD "" = "") ∧
    (cfg.users ≠ [] → ∃ u ∈ cfg.users,
      ((cfg.users.head?).map User.access_token).getD "" = u.access_token) ∧
    (∀ serverPort2 : Nat,
      status serverPort system_name used_memory cpu_usage hardware_output
        network_stats network_traffic components disks cfg =
      status serverPort2 system_name used_memory cpu_usage hardware_output
        network_stats network_traffic components disks cfg) := by
  refine ⟨⟨_, rfl⟩, ?_, ?_, fun _ => rfl⟩
  · intro h
    rw [h]
    rfl
  · intro h
    rcases hu : cfg.users with _ | ⟨u, rest⟩
    · exact absurd hu h
    · exact ⟨u, hu ▸ List.mem_cons_self u rest, by simp⟩

/-- Witness for C10: on the empty store the URL token is empty; on
`demoStore` it is `alice`'s token `tok12345`, a registered user's token. -/
theorem status_access_url_witness :
    (∃ pre, status 8080 "Linux" 2147483648 "12.5" "HW"
        (Except.ok ["eth0"]) (Except.error "down") (Except.ok [])
        (Except.ok ["sda"]) demoStore =
      pre ++ ("\nAccess URL: http://localhost:3000/?token=" ++
        ((demoStore.users.head?).map User.access_token).getD "")) ∧
    ((AuthConfig.default.users.head?).map User.access_token).getD "" = "" ∧
    (∃ u ∈ demoStore.users,
      ((demoStore.users.head?).map User.access_token).getD "" =
        u.access_token) ∧
    status 8080 "Linux" 2147483648 "12.5" "HW"
        (Except.ok ["eth0"]) (Except.error "down") (Except.ok [])
        (Except.ok ["sda"]) demoStore =
      status 3000 "Linux" 2147483648 "12.5" "HW"
        (Except.ok ["eth0"]) (Except.error "down") (Except.ok [])
        (Except.ok ["sda"]) demoStore := by
  have h := status_access_url 8080 "Linux" 2147483648 "12.5" "HW"
    (Except.ok ["eth0"]) (Except.error "down") (Except.ok [])
    (Except.ok ["sda"]) demoStore
  have hdef := status_access_url 8080 "Linux" 2147483648 "12.5" "HW"
    (Except.ok ["eth0"]) (Except.error "down") (Except.ok [])
    (Except.ok ["sda"]) AuthConfig.default
  exact ⟨h.1, hdef.2.1 rfl, h.2.2.1 (by simp [demoStore]), h.2.2.2 3000⟩
